import Mathlib

/-
Verification of the MCP stdio test harness (src/test_mcp_stdio.py) and of the
MCP schema validator (src/validate-mcp-schema.py).

The Python code is shallowly embedded: JSON values (the results of Python's
json.loads) are an inductive type, Python dicts are insertion-ordered
association lists, and Python operations that can raise (subscripting a
non-dict, calling .get on a non-dict, len() on a number, `k in x` for
non-container x) are modelled in the Except monad, with the error string
naming the Python exception.  json.loads itself is external library code and
is a parameter (`decode`) of the transport; concrete decoders are supplied as
fixtures where concrete runs are evaluated.  Wall-clock timing (time.time())
and the subprocess itself are external; the subprocess interaction is
modelled by the possible outcomes of Popen.communicate.
-/

/-- JSON values as produced by Python's json.loads.  JSON numbers are
modelled as integers (the harness's protocol traffic uses integer ids);
Python dicts are insertion-ordered association lists of string keys. -/
inductive Json where
  | null
  | bool (b : Bool)
  | num (n : Int)
  | str (s : String)
  | arr (elems : List Json)
  | obj (fields : List (String × Json))

/-- A Python dict with string keys, as an insertion-ordered association
list.  json.loads never produces duplicate keys (later duplicates in the
text overwrite earlier ones), so lookups take the first match. -/
abbrev JDict := List (String × Json)

/-- Python dict lookup: `d[k]` when the key is present, none otherwise. -/
def dget? (d : JDict) (k : String) : Option Json :=
  (d.find? (fun p => p.1 == k)).map (fun p => p.2)

/-- Python `d.get(k, dflt)` on a dict. -/
def dgetD (d : JDict) (k : String) (dflt : Json) : Json :=
  (dget? d k).getD dflt

/-- Python `k in d` on a dict. -/
def dHasKey (d : JDict) (k : String) : Bool :=
  (dget? d k).isSome

/-- Whether a JSON value is a Python str. -/
def Json.isStr : Json → Bool
  | .str _ => true
  | _ => false

/-- List-of-characters prefix test (used to model Python str.startswith). -/
def listPrefixOf (p l : List Char) : Bool :=
  match p, l with
  | [], _ => true
  | _ :: _, [] => false
  | a :: p, b :: l => a == b && listPrefixOf p l

/-- Python `s.startswith(p)`. -/
def py_startswith (s p : String) : Bool := listPrefixOf p.toList s.toList

/-- List-of-characters infix test (used to model Python's `sub in s`). -/
def listInfixOf (p l : List Char) : Bool :=
  match l with
  | [] => listPrefixOf p []
  | _ :: t => listPrefixOf p l || listInfixOf p t

/-- Python substring test `needle in hay` on strings. -/
def containsSub (needle hay : String) : Bool := listInfixOf needle.toList hay.toList

/-- The characters stripped by Python str.strip() (ASCII whitespace; the
harness's protocol lines never carry the exotic Unicode spaces that
str.strip() additionally removes). -/
def pyIsSpace (c : Char) : Bool :=
  c == ' ' || c == '\t' || c == '\n' || c == '\r' || c == '\x0b' || c == '\x0c'

/-- Python `s.strip()`. -/
def pyStrip (s : String) : String :=
  String.mk (((s.toList.dropWhile pyIsSpace).reverse.dropWhile pyIsSpace).reverse)

/-- Split a character list at every occurrence of `sep`, keeping empty
pieces, as Python str.split with an explicit separator does. -/
def pySplitChar (sep : Char) (cs : List Char) : List (List Char) :=
  match cs with
  | [] => [[]]
  | c :: rest =>
    let r := pySplitChar sep rest
    if c == sep then [] :: r
    else
      match r with
      | [] => [[c]]
      | h :: t => (c :: h) :: t

/-- Python `s.split('\n')`. -/
def pySplitLines (s : String) : List String :=
  (pySplitChar '\n' s.toList).map String.mk

/-- Python truthiness of a JSON value (None, False, 0, "", [] and an empty
dict are falsy). -/
def pyTruthy : Json → Bool
  | .null => false
  | .bool b => b
  | .num n => n != 0
  | .str s => !s.toList.isEmpty
  | .arr xs => !xs.isEmpty
  | .obj fs => !fs.isEmpty

/-- Python `type(x).__name__` for json.loads values. -/
def pyTypeName : Json → String
  | .null => "NoneType"
  | .bool _ => "bool"
  | .num _ => "int"
  | .str _ => "str"
  | .arr _ => "list"
  | .obj _ => "dict"

/-- The apostrophe character used by Python repr for strings (written via
its code point to keep it out of the source text). -/
def pyQuote : String := String.mk [Char.ofNat 39]

mutual

/-- Python repr() of a json.loads value (repr escaping of special characters
inside strings is elided; no message equality proved here depends on it). -/
def pyRepr : Json → String
  | .null => "None"
  | .bool true => "True"
  | .bool false => "False"
  | .num n => toString n
  | .str s => pyQuote ++ s ++ pyQuote
  | .arr xs => "[" ++ pyReprList xs ++ "]"
  | .obj fs => "\x7b" ++ pyReprFields fs ++ "\x7d"

/-- Comma-separated reprs of the elements of a list. -/
def pyReprList : List Json → String
  | [] => ""
  | [x] => pyRepr x
  | x :: xs => pyRepr x ++ ", " ++ pyReprList xs

/-- Comma-separated reprs of the key/value pairs of a dict. -/
def pyReprFields : List (String × Json) → String
  | [] => ""
  | [(k, v)] => pyQuote ++ k ++ pyQuote ++ ": " ++ pyRepr v
  | (k, v) :: fs => pyQuote ++ k ++ pyQuote ++ ": " ++ pyRepr v ++ ", " ++ pyReprFields fs

end

/-- Python str() of a json.loads value, as f-string interpolation applies it:
a str passes through unchanged, every other value renders via repr. -/
def pyStr : Json → String
  | .str s => s
  | j => pyRepr j

/-- Python `k in x`: key test on dicts, membership on lists, substring test
on strings; raises TypeError on the remaining (non-container) values. -/
def pyIn (k : String) (j : Json) : Except String Bool :=
  match j with
  | .obj fs => .ok (dHasKey fs k)
  | .arr xs => .ok (xs.any (fun x => match x with | .str s => s == k | _ => false))
  | .str s => .ok (containsSub k s)
  | _ => .error "TypeError: argument is not iterable"

/-- Python `x[k]` with a string key: raises KeyError on a dict missing the
key and TypeError on any non-dict. -/
def pySubscript (j : Json) (k : String) : Except String Json :=
  match j with
  | .obj fs =>
    match dget? fs k with
    | some v => .ok v
    | none => .error "KeyError"
  | _ => .error "TypeError: not subscriptable by str"

/-- Python `x.get(k, dflt)`: only dicts have .get, every other value raises
AttributeError. -/
def pyDictGet (j : Json) (k : String) (dflt : Json) : Except String Json :=
  match j with
  | .obj fs => .ok (dgetD fs k dflt)
  | _ => .error "AttributeError: no attribute get"

/-- Python `x.items()`: only dicts have .items. -/
def pyItems : Json → Except String JDict
  | .obj fs => .ok fs
  | _ => .error "AttributeError: no attribute items"

/-- Python `len(x)`: defined on strings, lists and dicts, raises TypeError
otherwise. -/
def pyLen : Json → Except String Nat
  | .str s => .ok s.length
  | .arr xs => .ok xs.length
  | .obj fs => .ok fs.length
  | _ => .error "TypeError: has no len"

/- ===================== Session Transport ======================
   src/test_mcp_stdio.py, MCPStdioTester.send_sequence (lines 82-124)
   and the shared output-scanning logic of send_message (lines 60-71). -/

/-- The stripped lines of a captured stdout string: `stdout.split('\n')`
followed by `line.strip()` per line (lines 109-110). -/
def scanLines (stdout : String) : List String :=
  (pySplitLines stdout).map pyStrip

/-- The filter of line 111: `line.startswith('{') and '"jsonrpc"' in line`. -/
def isResponseLine (l : String) : Bool :=
  py_startswith l "\x7b" && containsSub "\"jsonrpc\"" l

/-- The parse attempt of lines 111-115 for one stripped line: the decoded
value when the line passes the filter and json.loads succeeds, none when the
line is filtered out or fails to decode (json.JSONDecodeError is caught and
the line skipped). -/
def responseParse (decode : String → Option Json) (l : String) : Option Json :=
  if isResponseLine l then decode l else none

/-- The response-collection loop of send_sequence (lines 108-117):
`responses = []`, then for each stripped line append the parse when the
filter passes and decoding succeeds. -/
def send_sequence_responses (decode : String → Option Json) (stdout : String) : List Json :=
  (scanLines stdout).foldl
    (fun acc l =>
      if isResponseLine l then
        match decode l with
        | some j => acc ++ [j]
        | none => acc
      else acc)
    []

/-- The possible outcomes of `process.communicate(input=..., timeout=...)`
(line 102): normal completion with captured stdout, subprocess.TimeoutExpired
(raised when the timeout elapses before the subprocess exits; per Python's
documented semantics the child process is NOT killed by communicate), or any
other exception. -/
inductive CommResult where
  | success (stdout : String)
  | timeoutExpired
  | exnOther (msg : String)

/-- What send_sequence leaves behind when it returns: the parsed responses,
whether the subprocess is still running at that point, and whether an
exception escaped send_sequence itself. -/
structure SessionOutcome where
  responses : List Json
  subprocessRunning : Bool
  raised : Bool

/-- MCPStdioTester.send_sequence (lines 82-124) as a function of the
communicate outcome.  On success the process has terminated and the output
is scanned (lines 108-117).  On subprocess.TimeoutExpired the handler (lines
119-120) is just `return []`: it contains no process.kill() call, so the
still-running child (which communicate does not kill) stays running.  Any
other exception is swallowed (lines 121-124) and [] returned. -/
def send_sequence_run (decode : String → Option Json) : CommResult → SessionOutcome
  | .success stdout => ⟨send_sequence_responses decode stdout, false, false⟩
  | .timeoutExpired => ⟨[], true, false⟩
  | .exnOther _ => ⟨[], false, false⟩

/- ===================== Scenario Runner ======================
   src/test_mcp_stdio.py, the test_* methods and run_all_tests/main. -/

/-- TestResult (lines 15-22).  The duration field records time.time()
differences, an external wall-clock quantity, and is not modelled. -/
structure TestResult where
  name : String
  passed : Bool
  message : String
  response : Option Json

/-- MCPStdioTester.test_initialize (lines 126-160), as a function of the
response send_message recovered (the transport and the request body built on
lines 130-139 are external to the verdict logic).  Source name:
test_initialize. -/
def testInitialize (response : Option Json) : Except String TestResult := do
  let passResult ←
    match response with
    | none => pure none
    | some r =>
      if pyTruthy r then do
        let hasResult ← pyIn "result" r
        if hasResult then do
          let res ← pySubscript r "result"
          let hasPV ← pyIn "protocolVersion" res
          if hasPV then do
            let pv ← pySubscript res "protocolVersion"
            pure (some (TestResult.mk "MCP Initialize" true
              ("Protocol version: " ++ pyStr pv) (some r)))
          else pure none
        else pure none
      else pure none
  match passResult with
  | some t => pure t
  | none => pure ⟨"MCP Initialize", false, "No valid initialize response", response⟩

/-- MCPStdioTester.test_tools_list (lines 162-202), as a function of the
responses send_sequence recovered. -/
def test_tools_list (responses : List Json) : Except String TestResult := do
  let cond ←
    if responses.length ≥ 2 then
      pyIn "result" (responses.getD 1 Json.null)
    else pure false
  if cond then
    let res ← pySubscript (responses.getD 1 Json.null) "result"
    let tools ← pyDictGet res "tools" (Json.arr [])
    let n ← pyLen tools
    pure ⟨"List Tools", true, "Found " ++ toString n ++ " tools",
      some (responses.getD 1 Json.null)⟩
  else
    pure ⟨"List Tools", false, "Failed to get tools list",
      if responses.length > 1 then responses[1]? else none⟩

/-- MCPStdioTester.test_resources_list (lines 204-244). -/
def test_resources_list (responses : List Json) : Except String TestResult := do
  let cond ←
    if responses.length ≥ 2 then
      pyIn "result" (responses.getD 1 Json.null)
    else pure false
  if cond then
    let res ← pySubscript (responses.getD 1 Json.null) "result"
    let resources ← pyDictGet res "resources" (Json.arr [])
    let n ← pyLen resources
    pure ⟨"List Resources", true, "Found " ++ toString n ++ " resources",
      some (responses.getD 1 Json.null)⟩
  else
    pure ⟨"List Resources", false, "Failed to get resources list",
      if responses.length > 1 then responses[1]? else none⟩

/-- MCPStdioTester.test_call_tool (lines 246-299). -/
def test_call_tool (toolName : String) (responses : List Json) : Except String TestResult := do
  let branchResult ←
    if responses.length ≥ 2 then do
      let result := responses.getD 1 Json.null
      let hasResult ← pyIn "result" result
      if hasResult then
        pure (some (TestResult.mk ("Call Tool: " ++ toolName) true
          "Tool executed successfully" (some result)))
      else do
        let hasError ← pyIn "error" result
        if hasError then do
          let err ← pySubscript result "error"
          let msg ← pyDictGet err "message" (Json.str "Unknown")
          pure (some (TestResult.mk ("Call Tool: " ++ toolName) false
            ("Tool error: " ++ pyStr msg) (some result)))
        else pure none
    else pure none
  match branchResult with
  | some t => pure t
  | none => pure ⟨"Call Tool: " ++ toolName, false, "No response from tool",
      if responses.length > 1 then responses[1]? else none⟩

/-- MCPStdioTester.test_invalid_method (lines 301-330). -/
def test_invalid_method (response : Option Json) : Except String TestResult := do
  let passResult ←
    match response with
    | none => pure none
    | some r =>
      if pyTruthy r then do
        let hasError ← pyIn "error" r
        if hasError then do
          let err ← pySubscript r "error"
          let msg ← pyDictGet err "message" (Json.str "Unknown")
          pure (some (TestResult.mk "Invalid Method Error Handling" true
            ("Correctly returned error: " ++ pyStr msg) (some r)))
        else pure none
      else pure none
  match passResult with
  | some t => pure t
  | none =>
    pure ⟨"Invalid Method Error Handling", false,
      "Did not return error for invalid method", response⟩

/-- The named scenarios of the fixed suite (run_all_tests, lines 341-351). -/
inductive Scenario where
  | initHandshake
  | toolsList
  | resourcesList
  | callTool (toolName : String) (arguments : JDict)
  | invalidMethod

/-- The fixed, ordered scenario list of run_all_tests (lines 341-351).
Source name: tests. -/
def scenarioList : List Scenario :=
  [.initHandshake, .toolsList, .resourcesList,
   .callTool "GET__tools_info" [],
   .callTool "POST__tools_find" [("query", Json.str "BRCA")],
   .callTool "POST__tools_resolve_symbol" [("symbol", Json.str "TP53")],
   .callTool "POST__tools_normalize_list"
     [("symbols", Json.arr [Json.str "BRCA1", Json.str "TP53", Json.str "EGFR"])],
   .callTool "POST__tools_validate_panel"
     [("items", Json.arr [Json.str "BRCA1", Json.str "TP53", Json.str "INVALID"])],
   .invalidMethod]

/-- The result accumulation of run_all_tests (lines 354-357): every test in
the list is invoked in order and its result appended to self.results,
regardless of earlier outcomes.  Each test's verdict (the combination of its
fresh subprocess session and its verdict logic) is abstracted as the oracle
`execute`. -/
def run_results (execute : Scenario → TestResult) : List TestResult :=
  scenarioList.foldl (fun acc t => acc ++ [execute t]) []

/-- run_all_tests' return value (lines 368-389): `(passed, total)` where
passed counts results with passed=True and total is len(results). -/
def run_all_tests (execute : Scenario → TestResult) : Nat × Nat :=
  ((run_results execute).countP (fun r => r.passed), (run_results execute).length)

/-- main's exit status (line 426): `sys.exit(0 if passed == total else 1)`. -/
def main_exit (counts : Nat × Nat) : Nat :=
  if counts.1 = counts.2 then 0 else 1

/- ===================== Schema Validator ======================
   src/validate-mcp-schema.py. -/

/-- Classification used by the validator's main (lines 208-209): an issue is
critical (blocking) iff its text starts with the cross-mark prefix. -/
def isCritical (issue : String) : Bool := py_startswith issue "❌"

/-- An issue is a warning (advisory) iff its text starts with the
warning-sign prefix (line 209). -/
def isWarning (issue : String) : Bool := py_startswith issue "⚠️"

/-- The default-value checks of validate_tool_schema (lines 29-36) for one
declared property: an empty list default is flagged advisory, a non-empty
list default whose first element is the string "c" is flagged blocking, and
every other default (or an absent default) produces nothing. -/
def default_issues (toolName propName : String) (propDef : Json) : Except String (List String) := do
  let hasDefault ← pyIn "default" propDef
  if hasDefault then do
    let dflt ← pySubscript propDef "default"
    match dflt with
    | .arr [] =>
      pure ["⚠️  " ++ toolName ++ "." ++ propName ++ ": " ++ pyQuote ++ "default" ++ pyQuote ++
        " is empty array [] - should be null or omitted"]
    | .arr (x :: rest) =>
      pure (match x with
        | .str s =>
          if s = "c" then
            ["❌ " ++ toolName ++ "." ++ propName ++ ": " ++ pyQuote ++ "default" ++ pyQuote ++
              " contains malformed array (R c() function?): " ++ pyStr (Json.arr (x :: rest))]
          else []
        | _ => [])
    | _ => pure []
  else pure []

/-- The per-property description check of validate_tool_schema (lines
38-41). -/
def prop_description_issues (toolName propName : String) (propDef : Json) :
    Except String (List String) := do
  let hasDesc ← pyIn "description" propDef
  if hasDesc then do
    let d ← pySubscript propDef "description"
    pure (match d with
      | .str _ => []
      | _ => ["❌ " ++ toolName ++ "." ++ propName ++ ": " ++ pyQuote ++ "description" ++ pyQuote ++
          " must be a string"])
  else pure []

/-- All issues contributed by one declared property (lines 27-41): the
default checks followed by the description check. -/
def tool_prop_issues (toolName propName : String) (propDef : Json) :
    Except String (List String) := do
  let dIssues ← default_issues toolName propName propDef
  let descIssues ← prop_description_issues toolName propName propDef
  pure (dIssues ++ descIssues)

/-- The tool-level description check of validate_tool_schema (lines 19-21). -/
def tool_desc_issues (toolName : String) (tool : JDict) : List String :=
  match dget? tool "description" with
  | some (.str _) => []
  | some d => ["❌ " ++ toolName ++ ": " ++ pyQuote ++ "description" ++ pyQuote ++
      " must be a string, got " ++ pyTypeName d]
  | none => []

/-- The inputSchema property walk of validate_tool_schema (lines 24-41). -/
def tool_schema_issues (toolName : String) (tool : JDict) : Except String (List String) := do
  match dget? tool "inputSchema" with
  | some schema => do
    let hasProps ← pyIn "properties" schema
    if hasProps then do
      let props ← pySubscript schema "properties"
      let propFields ← pyItems props
      propFields.foldlM
        (fun acc p => do
          let more ← tool_prop_issues toolName p.1 p.2
          pure (acc ++ more))
        []
    else pure []
  | none => pure []

/-- validate_tool_schema (lines 13-43): the tool's name (via
`tool.get("name", "unknown")`, line 16) feeds the messages; issues are the
tool-level description check followed by the per-property checks. -/
def validate_tool_schema (tool : JDict) : Except String (List String) := do
  let toolName := pyStr (dgetD tool "name" (Json.str "unknown"))
  let schemaIssues ← tool_schema_issues toolName tool
  pure (tool_desc_issues toolName tool ++ schemaIssues)

/-- validate_prompt_schema (lines 46-59). -/
def validate_prompt_schema (prompt : JDict) : List String :=
  let promptName := pyStr (dgetD prompt "name" (Json.str "unknown"))
  (match dget? prompt "description" with
   | some (.str _) => []
   | some _ => ["❌ Prompt " ++ promptName ++ ": " ++ pyQuote ++ "description" ++ pyQuote ++
       " must be a string"]
   | none => []) ++
  (match dget? prompt "arguments" with
   | some (.arr _) => []
   | some _ => ["❌ Prompt " ++ promptName ++ ": " ++ pyQuote ++ "arguments" ++ pyQuote ++
       " must be an array"]
   | none => [])

/-- The per-field check of validate_resource_schema (lines 68-72): a missing
field is blocking, a present non-string field is blocking. -/
def resource_field_issues (uriStr : String) (resource : JDict) (field : String) : List String :=
  match dget? resource field with
  | none => ["❌ Resource " ++ uriStr ++ ": missing required field " ++ pyQuote ++ field ++ pyQuote]
  | some (.str _) => []
  | some _ => ["❌ Resource " ++ uriStr ++ ": " ++ pyQuote ++ field ++ pyQuote ++ " must be a string"]

/-- validate_resource_schema (lines 62-74): the three required fields are
checked in order, accumulating issues. -/
def validate_resource_schema (resource : JDict) : List String :=
  let uriStr := pyStr (dgetD resource "uri" (Json.str "unknown"))
  ["uri", "name", "mimeType"].foldl
    (fun acc f => acc ++ resource_field_issues uriStr resource f) []

/-- The all_issues accumulation of the validator's main (lines 163-204):
tool issues, then prompt issues, then resource issues, in list order. -/
def schema_all_issues (tools prompts resources : List JDict) : Except String (List String) := do
  let toolIssues ← tools.foldlM
    (fun acc t => do
      let more ← validate_tool_schema t
      pure (acc ++ more))
    []
  let promptIssues := prompts.foldl (fun acc p => acc ++ validate_prompt_schema p) []
  let resourceIssues := resources.foldl (fun acc r => acc ++ validate_resource_schema r) []
  pure (toolIssues ++ promptIssues ++ resourceIssues)

/-- The exit-status logic of the validator's main (lines 207-232): exit 1
when the critical list is non-empty, exit 0 when only warnings exist, exit 0
otherwise. -/
def schema_main_exit (issues : List String) : Nat :=
  let critical := issues.filter isCritical
  let warnings := issues.filter isWarning
  if critical.length ≠ 0 then 1
  else if warnings.length ≠ 0 then 0
  else 0

/- ===================== Capability retrieval ======================
   src/validate-mcp-schema.py, get_mcp_capabilities (lines 77-134). -/

/-- Python `==` between the hashable (scalar) json.loads values that can
appear as dict keys; containers are never stored as keys (storing one raises
TypeError first).  Python's numeric cross-type equality between bool and int
keys is elided: the harness's ids are integers. -/
def scalarKeyEq : Json → Json → Bool
  | .null, .null => true
  | .bool a, .bool b => a == b
  | .num a, .num b => a == b
  | .str a, .str b => a == b
  | _, _ => false

/-- Python dict assignment `m[k] = v` for a Json-keyed dict: overwrite the
existing entry if the key is present, append otherwise. -/
def assocSet (m : List (Json × Json)) (k v : Json) : List (Json × Json) :=
  if m.any (fun p => scalarKeyEq p.1 k) then
    m.map (fun p => if scalarKeyEq p.1 k then (p.1, v) else p)
  else m ++ [(k, v)]

/-- Python `m.get(k, dflt)` for a Json-keyed dict. -/
def assocGetD (m : List (Json × Json)) (k : Json) (dflt : Json) : Json :=
  ((m.find? (fun p => scalarKeyEq p.1 k)).map (fun p => p.2)).getD dflt

/-- Python dict assignment with the hashability check: list and dict keys
raise TypeError. -/
def dictSetChecked (m : List (Json × Json)) (k v : Json) :
    Except String (List (Json × Json)) :=
  match k with
  | .arr _ => .error "TypeError: unhashable type list"
  | .obj _ => .error "TypeError: unhashable type dict"
  | _ => .ok (assocSet m k v)

/-- One step of the response-correlation loop of get_mcp_capabilities
(lines 120-122): `if "id" in response and "result" in response:
responses[response["id"]] = response["result"]`. -/
def idStoreStep (acc : List (Json × Json)) (r : Json) :
    Except String (List (Json × Json)) := do
  let hasId ← pyIn "id" r
  let cond ← if hasId then pyIn "result" r else pure false
  if cond then
    let i ← pySubscript r "id"
    let res ← pySubscript r "result"
    dictSetChecked acc i res
  else pure acc

/-- One line of the scanning loop of get_mcp_capabilities (lines 116-124):
the same strip/filter/parse as the transport, feeding accepted parses to the
id-correlation step; json.JSONDecodeError is caught per line, every other
exception propagates to the outer handler. -/
def capScanStep (decode : String → Option Json) (acc : List (Json × Json)) (l : String) :
    Except String (List (Json × Json)) :=
  if isResponseLine l then
    match decode l with
    | some r => idStoreStep acc r
    | none => pure acc
  else pure acc

/-- The three capability lists returned by get_mcp_capabilities
(lines 126-130). -/
structure Capabilities where
  tools : Json
  prompts : Json
  resources : Json

/-- The body of get_mcp_capabilities' try block (lines 112-130): scan the
captured stdout into the id-keyed response dict, then read the three
capability lists out of the results correlated to ids 2, 3 and 4. -/
def get_mcp_capabilities_body (decode : String → Option Json) (stdout : String) :
    Except String Capabilities := do
  let resps ← (scanLines stdout).foldlM (capScanStep decode) []
  let tools ← pyDictGet (assocGetD resps (Json.num 2) (Json.obj [])) "tools" (Json.arr [])
  let prompts ← pyDictGet (assocGetD resps (Json.num 3) (Json.obj [])) "prompts" (Json.arr [])
  let resources ← pyDictGet (assocGetD resps (Json.num 4) (Json.obj [])) "resources" (Json.arr [])
  pure ⟨tools, prompts, resources⟩

/-- get_mcp_capabilities (lines 77-134): any exception in the body is caught
(lines 132-134) and the empty capability lists returned. -/
def get_mcp_capabilities (decode : String → Option Json) (stdout : String) : Capabilities :=
  match get_mcp_capabilities_body decode stdout with
  | .ok c => c
  | .error _ => ⟨Json.arr [], Json.arr [], Json.arr []⟩

/- ===================== Shape predicates and characterizations ======================
   Used only in theorem statements: conditions under which the Python code
   cannot raise, and the declarative by-id correlation that
   get_mcp_capabilities implements. -/

/-- Values on which Python len() is defined. -/
def sizedJson : Json → Bool
  | .str _ => true
  | .arr _ => true
  | .obj _ => true
  | _ => false

/-- A result object the scenario code can walk without raising: an object
whose tools and resources members, when present, support len(). -/
def goodResult : Json → Bool
  | .obj fs =>
    (match dget? fs "tools" with | some v => sizedJson v | none => true) &&
    (match dget? fs "resources" with | some v => sizedJson v | none => true)
  | _ => false

/-- A response the scenario code can walk without raising: an object whose
result member (when present) is a good result object and whose error member
(when present) is an object. -/
def goodResponse : Json → Bool
  | .obj fs =>
    (match dget? fs "result" with | some res => goodResult res | none => true) &&
    (match dget? fs "error" with | some (.obj _) => true | some _ => false | none => true)
  | _ => false

/-- A recovered response the correlation loop of get_mcp_capabilities can
store without raising: an object, with a hashable (scalar) id whenever it
carries both an id and a result. -/
def storeGood : Json → Bool
  | .obj fs =>
    if dHasKey fs "id" && dHasKey fs "result" then
      match dget? fs "id" with
      | some (.arr _) => false
      | some (.obj _) => false
      | _ => true
    else true
  | _ => false

/-- One step of the declarative by-id correlation: record result under id
for a response carrying both, ignore every other response.  Total
counterpart of idStoreStep, which it equals on storeGood responses. -/
def idStep (acc : List (Json × Json)) (r : Json) : List (Json × Json) :=
  match r with
  | .obj fs =>
    if dHasKey fs "id" && dHasKey fs "result" then
      assocSet acc (dgetD fs "id" Json.null) (dgetD fs "result" Json.null)
    else acc
  | _ => acc

/-- The declarative by-id correlation of get_mcp_capabilities: fold the
recovered responses in output order, recording result under id for every
response carrying both, later responses overwriting earlier ones with an
equal id. -/
def idResults (rs : List Json) : List (Json × Json) :=
  rs.foldl idStep []

/-- The responses the line scanner recovers from a captured output: the
parses of the whitespace-stripped lines that pass the response-line filter
and decode (the list send_sequence returns, per the transport theorem). -/
def recoveredResponses (decode : String → Option Json) (stdout : String) : List Json :=
  (scanLines stdout).filterMap (responseParse decode)

/-- Total counterpart of pyDictGet: dict lookup with a default, the default
on a non-dict. -/
def objGetD (j : Json) (k : String) (dflt : Json) : Json :=
  match j with
  | .obj fs => dgetD fs k dflt
  | _ => dflt

/-- Whether the result correlated to key k (if any) is an object, so that
the .get calls of lines 127-129 cannot raise on it. -/
def capResultGood (m : List (Json × Json)) (k : Json) : Bool :=
  match (m.find? (fun p => scalarKeyEq p.1 k)).map (fun p => p.2) with
  | some (Json.obj _) => true
  | some _ => false
  | none => true

/- ===================== Concrete fixtures ======================
   A concrete stand-in for json.loads covering the handful of response lines
   used in concrete runs below; json.loads itself is Python standard-library
   code, external to this repository.  Each mapped line is exactly what
   json.loads would return on it. -/

/-- The parse of a bare handshake-tag response line. -/
def jsonrpcOnly : Json := Json.obj [("jsonrpc", Json.str "2.0")]

/-- A response line with no id and no result. -/
def dupLine : String := "\x7b\"jsonrpc\": \"2.0\"\x7d"

/-- An id-1 response carrying a protocolVersion result. -/
def line1 : String :=
  "\x7b\"jsonrpc\": \"2.0\", \"id\": 1, \"result\": \x7b\"protocolVersion\": \"2024-11-05\"\x7d\x7d"

/-- An id-2 response carrying a one-tool tools list. -/
def line2 : String :=
  "\x7b\"jsonrpc\": \"2.0\", \"id\": 2, \"result\": \x7b\"tools\": [\x7b\"name\": \"t1\"\x7d]\x7d\x7d"

/-- An id-3 response carrying an error instead of a result. -/
def line3 : String :=
  "\x7b\"jsonrpc\": \"2.0\", \"id\": 3, \"error\": \x7b\"message\": \"nope\"\x7d\x7d"

/-- An id-4 response carrying an empty resources list. -/
def line4 : String :=
  "\x7b\"jsonrpc\": \"2.0\", \"id\": 4, \"result\": \x7b\"resources\": []\x7d\x7d"

/-- The fixture decoder: json.loads restricted to the lines above. -/
def decodeFix (s : String) : Option Json :=
  if s = dupLine then some jsonrpcOnly
  else if s = line1 then
    some (Json.obj [("jsonrpc", Json.str "2.0"), ("id", Json.num 1),
      ("result", Json.obj [("protocolVersion", Json.str "2024-11-05")])])
  else if s = line2 then
    some (Json.obj [("jsonrpc", Json.str "2.0"), ("id", Json.num 2),
      ("result", Json.obj [("tools", Json.arr [Json.obj [("name", Json.str "t1")]])])])
  else if s = line3 then
    some (Json.obj [("jsonrpc", Json.str "2.0"), ("id", Json.num 3),
      ("error", Json.obj [("message", Json.str "nope")])])
  else if s = line4 then
    some (Json.obj [("jsonrpc", Json.str "2.0"), ("id", Json.num 4),
      ("result", Json.obj [("resources", Json.arr [])])])
  else none

/-- A captured output in which the same response line appears twice amid
noise. -/
def dupStdout : String :=
  "INFO starting up\n" ++ dupLine ++ "\n" ++ dupLine ++ "\n"

/-- A captured output with noise, out-of-order responses, and an
error-carrying response. -/
def capStdout : String :=
  "Server started\n" ++ line4 ++ "\n" ++ line3 ++ "\n" ++ line2 ++ "\n" ++ line1 ++ "\n"

/-- Whether a modelled Python computation completed without raising. -/
def exceptOk {α : Type} : Except String α → Bool
  | .ok _ => true
  | .error _ => false

/- ===================== Helper lemmas ====================== -/

theorem string_toList_append (s t : String) : (s ++ t).toList = s.toList ++ t.toList := by
  show (s ++ t).data = s.data ++ t.data
  simp

theorem listPrefixOf_append_of_prefix (q p t : List Char) (h : listPrefixOf q p = true) :
    listPrefixOf q (p ++ t) = true := by
  induction q generalizing p with
  | nil => simp [listPrefixOf]
  | cons a q ih =>
    cases p with
    | nil => simp [listPrefixOf] at h
    | cons b p =>
      simp only [listPrefixOf, Bool.and_eq_true, beq_iff_eq] at h ⊢
      exact ⟨h.1, ih p h.2⟩

theorem py_startswith_append (p t q : String) (h : py_startswith p q = true) :
    py_startswith (p ++ t) q = true := by
  unfold py_startswith at h ⊢
  rw [string_toList_append]
  exact listPrefixOf_append_of_prefix _ _ _ h

theorem isCritical_of_prefix (p t : String) (h : isCritical p = true) :
    isCritical (p ++ t) = true :=
  py_startswith_append p t _ h

theorem isWarning_of_prefix (p t : String) (h : isWarning p = true) :
    isWarning (p ++ t) = true :=
  py_startswith_append p t _ h

theorem foldl_resp_eq (decode : String → Option Json) (ls : List String) (acc : List Json) :
    ls.foldl
      (fun acc l =>
        if isResponseLine l then
          match decode l with
          | some j => acc ++ [j]
          | none => acc
        else acc)
      acc
      = acc ++ ls.filterMap (responseParse decode) := by
  induction ls generalizing acc with
  | nil => simp
  | cons l ls ih =>
    simp only [List.foldl_cons, List.filterMap_cons]
    cases h : isResponseLine l
    · simp [responseParse, h, ih]
    · cases hd : decode l
      · simp [responseParse, h, hd, ih]
      · simp [responseParse, h, hd, ih]

theorem foldl_append_eq_map {α β : Type} (f : α → β) (l : List α) (acc : List β) :
    l.foldl (fun a x => a ++ [f x]) acc = acc ++ l.map f := by
  induction l generalizing acc with
  | nil => simp
  | cons x xs ih => simp [List.foldl_cons, ih]

theorem send_sequence_responses_eq (decode : String → Option Json) (stdout : String) :
    send_sequence_responses decode stdout
      = (scanLines stdout).filterMap (responseParse decode) := by
  unfold send_sequence_responses
  simpa using foldl_resp_eq decode (scanLines stdout) []

/- ===================== Claim theorems ====================== -/

/-- Claim C1: for every captured stdout string, the multi-message run of the
Session Transport returns exactly the JSON parses of those
whitespace-stripped lines that begin with a left brace, contain the
protocol-tag substring, and decode successfully, in their original relative
order, and nothing else; all other lines are silently skipped. -/
theorem transport_returns_exactly_valid_response_lines (decode : String → Option Json)
    (stdout : String) :
    (send_sequence_run decode (CommResult.success stdout)).responses
      = (scanLines stdout).filterMap (responseParse decode) :=
  send_sequence_responses_eq decode stdout

/-- Claim C2 (code bug): when the configured timeout elapses,
send_sequence's handler returns zero responses and lets no exception past
the component boundary, but it contains no process.kill() call, so the
subprocess — which Popen.communicate does not kill on TimeoutExpired — is
still running when control returns to the caller, contrary to the claim. -/
theorem transport_timeout_leaves_subprocess_running (decode : String → Option Json) :
    (send_sequence_run decode CommResult.timeoutExpired).responses = []
    ∧ (send_sequence_run decode CommResult.timeoutExpired).raised = false
    ∧ (send_sequence_run decode CommResult.timeoutExpired).subprocessRunning = true :=
  ⟨rfl, rfl, rfl⟩

/-- Claim C3: the scenario runner executes every scenario of the fixed,
ordered list regardless of earlier failures (the result list is exactly the
scenario list's image, in order), and the process exit status is non-zero if
and only if at least one scenario produced a failing verdict. -/
theorem runner_exit_nonzero_iff_some_scenario_failed (execute : Scenario → TestResult) :
    run_results execute = scenarioList.map execute
    ∧ (run_all_tests execute).2 = scenarioList.length
    ∧ (main_exit (run_all_tests execute) ≠ 0
        ↔ ∃ s ∈ scenarioList, (execute s).passed = false) := by
  have hres : run_results execute = scenarioList.map execute := by
    unfold run_results
    rw [foldl_append_eq_map]
    simp
  refine ⟨hres, ?_, ?_⟩
  · simp [run_all_tests, hres]
  · have key : main_exit (run_all_tests execute) ≠ 0
        ↔ ¬ (∀ r ∈ run_results execute, r.passed = true) := by
      unfold main_exit run_all_tests
      by_cases h : (run_results execute).countP (fun r => r.passed)
          = (run_results execute).length
      · simp only [h, if_pos, ne_eq, not_true_eq_false, false_iff, not_not]
        exact List.countP_eq_length.mp h
      · simp only [h, if_neg, ne_eq, one_ne_zero, not_false_eq_true, true_iff]
        exact fun hall => h (List.countP_eq_length.mpr hall)
    rw [key, hres]
    constructor
    · intro hna
      push_neg at hna
      rcases hna with ⟨r, hr, hnp⟩
      rcases List.mem_map.mp hr with ⟨s, hs, hse⟩
      exact ⟨s, hs, by rw [hse]; exact Bool.not_eq_true _ ▸ hnp⟩
    · intro ⟨s, hs, hsf⟩ hall
      have := hall (execute s) (List.mem_map.mpr ⟨s, hs, rfl⟩)
      rw [hsf] at this
      cases this

/-- Claim C7 is false as stated: a captured output in which the same valid
response line occurs twice makes the transport return the same parsed
response twice, so the returned list is not duplicate-free. -/
theorem transport_may_return_duplicate_responses :
    ¬ ((send_sequence_run decodeFix (CommResult.success dupStdout)).responses).Nodup := by
  have h : (send_sequence_run decodeFix (CommResult.success dupStdout)).responses
      = [jsonrpcOnly, jsonrpcOnly] := by rfl
  rw [h]
  intro hnd
  exact (List.nodup_cons.mp hnd).1 (List.mem_singleton.mpr rfl)

/-- Claim C7, amended: the transport returns one response per valid
response line — it never invents a duplicate of its own — so the returned
list is duplicate-free exactly when the parses of the valid lines are
pairwise distinct; output repeating an identical response line yields that
response more than once. -/
theorem transport_nodup_iff_valid_line_parses_nodup (decode : String → Option Json)
    (stdout : String) :
    ((send_sequence_run decode (CommResult.success stdout)).responses).Nodup
      ↔ ((scanLines stdout).filterMap (responseParse decode)).Nodup := by
  rw [show (send_sequence_run decode (CommResult.success stdout)).responses
      = send_sequence_responses decode stdout from rfl,
    send_sequence_responses_eq]

theorem listPrefixOf_refl (l : List Char) : listPrefixOf l l = true := by
  induction l with
  | nil => rfl
  | cons a l ih => simp [listPrefixOf, ih]

theorem listInfixOf_suffix (q p : List Char) : listInfixOf q (p ++ q) = true := by
  induction p with
  | nil =>
    cases q with
    | nil => rfl
    | cons a t => simp [listInfixOf, listPrefixOf_refl]
  | cons c p ih => simp [listInfixOf, ih]

theorem containsSub_suffix (p q : String) : containsSub q (p ++ q) = true := by
  unfold containsSub
  rw [string_toList_append]
  exact listInfixOf_suffix _ _

/-- Claim C4: a call-tool scenario whose second recovered response carries
an error object with a message text and no result returns a failing verdict
whose diagnostic contains that message text (the diagnostic is exactly the
"Tool error: " prefix followed by the message). -/
theorem call_tool_error_response_fails_with_message
    (toolName : String) (responses : List Json) (d e : JDict) (m : String)
    (hlen : responses.length ≥ 2)
    (h1 : responses.getD 1 Json.null = Json.obj d)
    (hres : dget? d "result" = none)
    (herr : dget? d "error" = some (Json.obj e))
    (hmsg : dget? e "message" = some (Json.str m)) :
    test_call_tool toolName responses
      = Except.ok ⟨"Call Tool: " ++ toolName, false, "Tool error: " ++ m, some (Json.obj d)⟩
    ∧ containsSub m ("Tool error: " ++ m) = true := by
  constructor
  · unfold test_call_tool
    rw [if_pos hlen, h1]
    simp [pyIn, dHasKey, hres, herr, hmsg, pySubscript, pyDictGet, dgetD, pyStr,
      bind, Except.bind, pure, Except.pure, Functor.map, Except.map]
  · exact containsSub_suffix "Tool error: " m

/-- Witness for C4 at a concrete error response. -/
theorem call_tool_error_response_fails_with_message_witness :
    test_call_tool "POST__tools_find"
        [Json.obj [("jsonrpc", Json.str "2.0"), ("id", Json.num 1),
           ("result", Json.obj [("protocolVersion", Json.str "2024-11-05")])],
         Json.obj [("jsonrpc", Json.str "2.0"), ("id", Json.num 2),
           ("error", Json.obj [("message", Json.str "bad args")])]]
      = Except.ok ⟨"Call Tool: " ++ "POST__tools_find", false, "Tool error: " ++ "bad args",
          some (Json.obj [("jsonrpc", Json.str "2.0"), ("id", Json.num 2),
            ("error", Json.obj [("message", Json.str "bad args")])])⟩
    ∧ containsSub "bad args" ("Tool error: " ++ "bad args") = true :=
  call_tool_error_response_fails_with_message "POST__tools_find"
    [Json.obj [("jsonrpc", Json.str "2.0"), ("id", Json.num 1),
       ("result", Json.obj [("protocolVersion", Json.str "2024-11-05")])],
     Json.obj [("jsonrpc", Json.str "2.0"), ("id", Json.num 2),
       ("error", Json.obj [("message", Json.str "bad args")])]]
    [("jsonrpc", Json.str "2.0"), ("id", Json.num 2),
       ("error", Json.obj [("message", Json.str "bad args")])]
    [("message", Json.str "bad args")] "bad args"
    (by decide) rfl rfl rfl rfl

theorem getD_mem_of_lt (l : List Json) (h : 1 < l.length) : l.getD 1 Json.null ∈ l := by
  cases l with
  | nil => simp at h
  | cons a t =>
    cases t with
    | nil => simp at h
    | cons b t2 => simp [List.getD]

theorem goodResult_elim {res : Json} (h : goodResult res = true) :
    ∃ rfs, res = Json.obj rfs
      ∧ (∀ v, dget? rfs "tools" = some v → sizedJson v = true)
      ∧ (∀ v, dget? rfs "resources" = some v → sizedJson v = true) := by
  cases res with
  | obj rfs =>
    refine ⟨rfs, rfl, ?_, ?_⟩
    · intro v hv
      rw [goodResult, hv] at h
      simp only [Bool.and_eq_true] at h
      exact h.1
    · intro v hv
      rw [goodResult, hv] at h
      simp only [Bool.and_eq_true] at h
      exact h.2
  | null => exact absurd h (by simp [goodResult])
  | bool b => exact absurd h (by simp [goodResult])
  | num n => exact absurd h (by simp [goodResult])
  | str s => exact absurd h (by simp [goodResult])
  | arr xs => exact absurd h (by simp [goodResult])

theorem goodResponse_elim {r : Json} (h : goodResponse r = true) :
    ∃ fs, r = Json.obj fs
      ∧ (∀ res, dget? fs "result" = some res → goodResult res = true)
      ∧ (∀ err, dget? fs "error" = some err → ∃ es, err = Json.obj es) := by
  cases r with
  | obj fs =>
    refine ⟨fs, rfl, ?_, ?_⟩
    · intro res hres
      rw [goodResponse, hres] at h
      simp only [Bool.and_eq_true] at h
      exact h.1
    · intro err herr
      rw [goodResponse, herr] at h
      simp only [Bool.and_eq_true] at h
      have h2 := h.2
      cases err with
      | obj es => exact ⟨es, rfl⟩
      | null => simp at h2
      | bool b => simp at h2
      | num n => simp at h2
      | str s => simp at h2
      | arr xs => simp at h2
  | null => exact absurd h (by simp [goodResponse])
  | bool b => exact absurd h (by simp [goodResponse])
  | num n => exact absurd h (by simp [goodResponse])
  | str s => exact absurd h (by simp [goodResponse])
  | arr xs => exact absurd h (by simp [goodResponse])

theorem pyLen_ok_of_sized (v : Json) (h : sizedJson v = true) :
    exceptOk (pyLen v) = true := by
  cases v <;> simp [sizedJson] at h <;> simp [pyLen, exceptOk]

theorem test_tools_list_ok (responses : List Json)
    (h : ∀ x ∈ responses, goodResponse x = true) :
    exceptOk (test_tools_list responses) = true := by
  unfold test_tools_list
  by_cases hlen : responses.length ≥ 2
  · rw [if_pos hlen]
    have hmem : responses.getD 1 Json.null ∈ responses := getD_mem_of_lt _ (by omega)
    obtain ⟨fs, hfs, hresg, _⟩ := goodResponse_elim (h _ hmem)
    rw [hfs]
    cases hres : dget? fs "result" with
    | none =>
      simp [pyIn, dHasKey, hres, bind, Except.bind, pure, Except.pure, exceptOk]
    | some res =>
      obtain ⟨rfs, hrfs, htool, _⟩ := goodResult_elim (hresg _ hres)
      subst hrfs
      cases htools : dget? rfs "tools" with
      | none =>
        simp [pyIn, dHasKey, hres, pySubscript, pyDictGet, dgetD, htools, pyLen,
          bind, Except.bind, pure, Except.pure, exceptOk]
      | some v =>
        have hsz := htool _ htools
        cases v <;> simp [sizedJson] at hsz <;>
          simp [pyIn, dHasKey, hres, pySubscript, pyDictGet, dgetD, htools, pyLen,
            bind, Except.bind, pure, Except.pure, exceptOk]
  · rw [if_neg hlen]
    simp [bind, Except.bind, pure, Except.pure, exceptOk]

theorem test_resources_list_ok (responses : List Json)
    (h : ∀ x ∈ responses, goodResponse x = true) :
    exceptOk (test_resources_list responses) = true := by
  unfold test_resources_list
  by_cases hlen : responses.length ≥ 2
  · rw [if_pos hlen]
    have hmem : responses.getD 1 Json.null ∈ responses := getD_mem_of_lt _ (by omega)
    obtain ⟨fs, hfs, hresg, _⟩ := goodResponse_elim (h _ hmem)
    rw [hfs]
    cases hres : dget? fs "result" with
    | none =>
      simp [pyIn, dHasKey, hres, bind, Except.bind, pure, Except.pure, exceptOk]
    | some res =>
      obtain ⟨rfs, hrfs, _, hresrc⟩ := goodResult_elim (hresg _ hres)
      subst hrfs
      cases hrc : dget? rfs "resources" with
      | none =>
        simp [pyIn, dHasKey, hres, pySubscript, pyDictGet, dgetD, hrc, pyLen,
          bind, Except.bind, pure, Except.pure, exceptOk]
      | some v =>
        have hsz := hresrc _ hrc
        cases v <;> simp [sizedJson] at hsz <;>
          simp [pyIn, dHasKey, hres, pySubscript, pyDictGet, dgetD, hrc, pyLen,
            bind, Except.bind, pure, Except.pure, exceptOk]
  · rw [if_neg hlen]
    simp [bind, Except.bind, pure, Except.pure, exceptOk]

theorem test_call_tool_ok (toolName : String) (responses : List Json)
    (h : ∀ x ∈ responses, goodResponse x = true) :
    exceptOk (test_call_tool toolName responses) = true := by
  unfold test_call_tool
  by_cases hlen : responses.length ≥ 2
  · rw [if_pos hlen]
    have hmem : responses.getD 1 Json.null ∈ responses := getD_mem_of_lt _ (by omega)
    obtain ⟨fs, hfs, _, herrg⟩ := goodResponse_elim (h _ hmem)
    rw [hfs]
    cases hres : dget? fs "result" with
    | some res =>
      simp [pyIn, dHasKey, hres, bind, Except.bind, pure, Except.pure, exceptOk]
    | none =>
      cases herr : dget? fs "error" with
      | none =>
        simp [pyIn, dHasKey, hres, herr, bind, Except.bind, pure, Except.pure, exceptOk]
      | some err =>
        obtain ⟨es, hes⟩ := herrg _ herr
        subst hes
        simp [pyIn, dHasKey, hres, herr, pySubscript, pyDictGet, dgetD, pyStr,
          bind, Except.bind, pure, Except.pure, Functor.map, Except.map, exceptOk]
  · rw [if_neg hlen]
    simp [bind, Except.bind, pure, Except.pure, exceptOk]

theorem testInitialize_ok (r? : Option Json)
    (h : ∀ r, r? = some r → goodResponse r = true) :
    exceptOk (testInitialize r?) = true := by
  unfold testInitialize
  cases r? with
  | none => simp [bind, Except.bind, pure, Except.pure, exceptOk]
  | some r =>
    obtain ⟨fs, hfs, hresg, _⟩ := goodResponse_elim (h r rfl)
    subst hfs
    cases htr : pyTruthy (Json.obj fs) with
    | false => simp [htr, bind, Except.bind, pure, Except.pure, exceptOk]
    | true =>
      cases hres : dget? fs "result" with
      | none =>
        simp [htr, pyIn, dHasKey, hres, bind, Except.bind, pure, Except.pure, exceptOk]
      | some res =>
        obtain ⟨rfs, hrfs, _, _⟩ := goodResult_elim (hresg _ hres)
        subst hrfs
        cases hpv : dget? rfs "protocolVersion" with
        | none =>
          simp [htr, pyIn, dHasKey, hres, pySubscript, hpv,
            bind, Except.bind, pure, Except.pure, exceptOk]
        | some pv =>
          simp [htr, pyIn, dHasKey, hres, pySubscript, hpv,
            bind, Except.bind, pure, Except.pure, exceptOk]

theorem test_invalid_method_ok (r? : Option Json)
    (h : ∀ r, r? = some r → goodResponse r = true) :
    exceptOk (test_invalid_method r?) = true := by
  unfold test_invalid_method
  cases r? with
  | none => simp [bind, Except.bind, pure, Except.pure, exceptOk]
  | some r =>
    obtain ⟨fs, hfs, _, herrg⟩ := goodResponse_elim (h r rfl)
    subst hfs
    cases htr : pyTruthy (Json.obj fs) with
    | false => simp [htr, bind, Except.bind, pure, Except.pure, exceptOk]
    | true =>
      cases herr : dget? fs "error" with
      | none =>
        simp [htr, pyIn, dHasKey, herr, bind, Except.bind, pure, Except.pure, exceptOk]
      | some err =>
        obtain ⟨es, hes⟩ := herrg _ herr
        subst hes
        simp [htr, pyIn, dHasKey, herr, pySubscript, pyDictGet, dgetD, pyStr,
          bind, Except.bind, pure, Except.pure, exceptOk]

theorem test_tools_list_short (responses : List Json) (h : responses.length < 2) :
    test_tools_list responses
      = Except.ok ⟨"List Tools", false, "Failed to get tools list", none⟩ := by
  unfold test_tools_list
  rw [if_neg (by omega)]
  have h1 : ¬ responses.length > 1 := by omega
  simp [bind, Except.bind, pure, Except.pure, h1]

theorem test_resources_list_short (responses : List Json) (h : responses.length < 2) :
    test_resources_list responses
      = Except.ok ⟨"List Resources", false, "Failed to get resources list", none⟩ := by
  unfold test_resources_list
  rw [if_neg (by omega)]
  have h1 : ¬ responses.length > 1 := by omega
  simp [bind, Except.bind, pure, Except.pure, h1]

theorem test_call_tool_short (toolName : String) (responses : List Json)
    (h : responses.length < 2) :
    test_call_tool toolName responses
      = Except.ok ⟨"Call Tool: " ++ toolName, false, "No response from tool", none⟩ := by
  unfold test_call_tool
  rw [if_neg (by omega)]
  have h1 : ¬ responses.length > 1 := by omega
  simp [bind, Except.bind, pure, Except.pure, h1]

/-- Claim C8 is false as stated: a response sequence the transport can
return — here a tools/list exchange whose second response carries a result
that is a bare array — makes test_tools_list raise (the Python code calls
.get on the non-dict result, an AttributeError) instead of returning a
verdict. -/
theorem tools_list_raises_on_nonobject_result :
    exceptOk (test_tools_list
      [Json.obj [("jsonrpc", Json.str "2.0"), ("id", Json.num 1),
         ("result", Json.obj [("protocolVersion", Json.str "2024-11-05")])],
       Json.obj [("jsonrpc", Json.str "2.0"), ("id", Json.num 2),
         ("result", Json.arr [])]]) = false := by rfl

/-- Claim C8, amended: every scenario function returns a TestVerdict
without raising when applied to response sequences of JSON objects whose
result members (when present) are objects whose tools/resources members
support len(), and whose error members (when present) are objects; in
particular a scenario with fewer responses than expected returns a failing
verdict naming the missing step rather than crashing.  (For result values
of other shapes a scenario can raise, as the counterexample shows.) -/
theorem scenarios_return_verdicts_on_wellshaped_responses
    (responses : List Json) (r : Json) (toolName : String)
    (hall : ∀ x ∈ responses, goodResponse x = true)
    (hr : goodResponse r = true) :
    exceptOk (testInitialize none) = true
    ∧ exceptOk (testInitialize (some r)) = true
    ∧ exceptOk (test_invalid_method none) = true
    ∧ exceptOk (test_invalid_method (some r)) = true
    ∧ exceptOk (test_tools_list responses) = true
    ∧ exceptOk (test_resources_list responses) = true
    ∧ exceptOk (test_call_tool toolName responses) = true
    ∧ (responses.length < 2 →
        test_tools_list responses
          = Except.ok ⟨"List Tools", false, "Failed to get tools list", none⟩
        ∧ test_resources_list responses
          = Except.ok ⟨"List Resources", false, "Failed to get resources list", none⟩
        ∧ test_call_tool toolName responses
          = Except.ok ⟨"Call Tool: " ++ toolName, false, "No response from tool", none⟩) :=
  ⟨testInitialize_ok none (by intro r hr'; cases hr'),
   testInitialize_ok (some r) (by intro r' hr'; cases hr'; exact hr),
   test_invalid_method_ok none (by intro r hr'; cases hr'),
   test_invalid_method_ok (some r) (by intro r' hr'; cases hr'; exact hr),
   test_tools_list_ok responses hall,
   test_resources_list_ok responses hall,
   test_call_tool_ok toolName responses hall,
   fun hshort =>
     ⟨test_tools_list_short responses hshort,
      test_resources_list_short responses hshort,
      test_call_tool_short toolName responses hshort⟩⟩

/-- Witness for the amended C8 at a concrete short, well-shaped response
sequence. -/
theorem scenarios_return_verdicts_witness :
    exceptOk (test_tools_list [Json.obj [("jsonrpc", Json.str "2.0")]]) = true
    ∧ test_tools_list [Json.obj [("jsonrpc", Json.str "2.0")]]
        = Except.ok ⟨"List Tools", false, "Failed to get tools list", none⟩ := by
  have h := scenarios_return_verdicts_on_wellshaped_responses
    [Json.obj [("jsonrpc", Json.str "2.0")]]
    (Json.obj [("jsonrpc", Json.str "2.0")]) "GET__tools_info"
    (by intro x hx; simp at hx; rw [hx]; rfl) (by rfl)
  exact ⟨h.2.2.2.2.1, (h.2.2.2.2.2.2.2 (by decide)).1⟩

theorem listPrefixOf_append_left (q p t : List Char) (hq : q.length ≤ p.length) :
    listPrefixOf q (p ++ t) = listPrefixOf q p := by
  induction q generalizing p with
  | nil => simp [listPrefixOf]
  | cons a q ih =>
    cases p with
    | nil => simp at hq
    | cons b p =>
      simp only [List.cons_append, listPrefixOf, List.append_eq]
      rw [ih p (by simpa using hq)]

theorem isCritical_of_warning_prefix (t : String) : isCritical ("⚠️  " ++ t) = false := by
  unfold isCritical py_startswith
  rw [string_toList_append, listPrefixOf_append_left _ _ _ (by decide)]
  decide

/-- Claim C5: for any tool and declared property of its input schema, the
default-value rule emits exactly one advisory finding when the default is an
empty list, exactly one blocking finding when the default is a non-empty
list whose first element is the string "c", and no finding when the default
is null or absent. -/
theorem tool_default_rule_findings (tn pn : String) (d : JDict) :
    (dget? d "default" = some (Json.arr []) →
      ∃ s, default_issues tn pn (Json.obj d) = Except.ok [s]
        ∧ isWarning s = true ∧ isCritical s = false)
    ∧ (∀ rest, dget? d "default" = some (Json.arr (Json.str "c" :: rest)) →
        ∃ s, default_issues tn pn (Json.obj d) = Except.ok [s] ∧ isCritical s = true)
    ∧ (dget? d "default" = some Json.null →
        default_issues tn pn (Json.obj d) = Except.ok [])
    ∧ (dget? d "default" = none →
        default_issues tn pn (Json.obj d) = Except.ok []) := by
  refine ⟨?_, ?_, ?_, ?_⟩
  · intro h
    refine ⟨"⚠️  " ++ tn ++ "." ++ pn ++ ": " ++ pyQuote ++ "default" ++ pyQuote ++
      " is empty array [] - should be null or omitted", ?_, ?_, ?_⟩
    · unfold default_issues
      simp [pyIn, dHasKey, h, pySubscript, bind, Except.bind, pure, Except.pure]
    · repeat apply isWarning_of_prefix
      decide
    · show isCritical ("⚠️  " ++ (tn ++ "." ++ pn ++ ": " ++ pyQuote ++ "default" ++ pyQuote ++
        " is empty array [] - should be null or omitted")) = false
      exact isCritical_of_warning_prefix _
  · intro rest h
    refine ⟨"❌ " ++ tn ++ "." ++ pn ++ ": " ++ pyQuote ++ "default" ++ pyQuote ++
      " contains malformed array (R c() function?): " ++
      pyStr (Json.arr (Json.str "c" :: rest)), ?_, ?_⟩
    · unfold default_issues
      simp [pyIn, dHasKey, h, pySubscript, bind, Except.bind, pure, Except.pure]
    · repeat apply isCritical_of_prefix
      decide
  · intro h
    unfold default_issues
    simp [pyIn, dHasKey, h, pySubscript, bind, Except.bind, pure, Except.pure]
  · intro h
    unfold default_issues
    simp [pyIn, dHasKey, h, bind, Except.bind, pure, Except.pure]

/-- Witness for C5 on the four default shapes. -/
theorem tool_default_rule_findings_witness :
    (∃ s, default_issues "t" "p" (Json.obj [("default", Json.arr [])]) = Except.ok [s]
      ∧ isWarning s = true ∧ isCritical s = false)
    ∧ (∃ s, default_issues "t" "p"
          (Json.obj [("default", Json.arr [Json.str "c", Json.str "symbol"])])
        = Except.ok [s] ∧ isCritical s = true)
    ∧ default_issues "t" "p" (Json.obj [("default", Json.null)]) = Except.ok []
    ∧ default_issues "t" "p" (Json.obj [("other", Json.num 1)]) = Except.ok [] :=
  ⟨(tool_default_rule_findings "t" "p" [("default", Json.arr [])]).1 rfl,
   (tool_default_rule_findings "t" "p"
      [("default", Json.arr [Json.str "c", Json.str "symbol"])]).2.1 [Json.str "symbol"] rfl,
   (tool_default_rule_findings "t" "p" [("default", Json.null)]).2.2.1 rfl,
   (tool_default_rule_findings "t" "p" [("other", Json.num 1)]).2.2.2 rfl⟩

/-- Claim C9: for every resource entry, validate_resource_schema is the
concatenation of the three per-field checks, each naming the resource by
str() of its uri with the "unknown" fallback of resource.get("uri",
"unknown") — which is the uri text itself whenever the uri is a text
value; a missing mimeType yields exactly one blocking finding naming that
uri and the mimeType field; and every required field (uri, name, mimeType)
that is missing or non-text yields exactly one blocking finding, while a
present text field yields none. -/
theorem resource_missing_mimetype_blocking (resource : JDict) :
    validate_resource_schema resource
      = resource_field_issues (pyStr (dgetD resource "uri" (Json.str "unknown"))) resource "uri"
        ++ resource_field_issues (pyStr (dgetD resource "uri" (Json.str "unknown"))) resource "name"
        ++ resource_field_issues (pyStr (dgetD resource "uri" (Json.str "unknown"))) resource "mimeType"
    ∧ (∀ u, dget? resource "uri" = some (Json.str u) →
        pyStr (dgetD resource "uri" (Json.str "unknown")) = u)
    ∧ (dget? resource "mimeType" = none →
        resource_field_issues (pyStr (dgetD resource "uri" (Json.str "unknown")))
            resource "mimeType"
          = ["❌ Resource " ++ pyStr (dgetD resource "uri" (Json.str "unknown"))
              ++ ": missing required field " ++ pyQuote ++ "mimeType" ++ pyQuote]
        ∧ isCritical ("❌ Resource " ++ pyStr (dgetD resource "uri" (Json.str "unknown"))
            ++ ": missing required field " ++ pyQuote ++ "mimeType" ++ pyQuote) = true)
    ∧ (∀ f, (dget? resource f = none ∨ (∃ v, dget? resource f = some v ∧ v.isStr = false)) →
        ∃ s, resource_field_issues (pyStr (dgetD resource "uri" (Json.str "unknown")))
            resource f = [s] ∧ isCritical s = true)
    ∧ (∀ f v, dget? resource f = some v → v.isStr = true →
        resource_field_issues (pyStr (dgetD resource "uri" (Json.str "unknown")))
          resource f = []) := by
  refine ⟨?_, ?_, ?_, ?_, ?_⟩
  · unfold validate_resource_schema
    simp [List.foldl]
  · intro u hu
    unfold dgetD
    rw [hu]
    rfl
  · intro hmt
    refine ⟨?_, ?_⟩
    · unfold resource_field_issues
      rw [hmt]
    · repeat apply isCritical_of_prefix
      decide
  · intro f hf
    rcases hf with hnone | ⟨v, hv, hvn⟩
    · refine ⟨"❌ Resource " ++ pyStr (dgetD resource "uri" (Json.str "unknown"))
          ++ ": missing required field " ++ pyQuote ++ f ++ pyQuote, ?_, ?_⟩
      · unfold resource_field_issues
        rw [hnone]
      · repeat apply isCritical_of_prefix
        decide
    · refine ⟨"❌ Resource " ++ pyStr (dgetD resource "uri" (Json.str "unknown"))
          ++ ": " ++ pyQuote ++ f ++ pyQuote ++ " must be a string", ?_, ?_⟩
      · unfold resource_field_issues
        rw [hv]
        cases v with
        | str s => simp [Json.isStr] at hvn
        | null => rfl
        | bool b => rfl
        | num n => rfl
        | arr xs => rfl
        | obj fs => rfl
      · repeat apply isCritical_of_prefix
        decide
  · intro f v hv hstr
    unfold resource_field_issues
    rw [hv]
    cases v with
    | str s => rfl
    | null => simp [Json.isStr] at hstr
    | bool b => simp [Json.isStr] at hstr
    | num n => simp [Json.isStr] at hstr
    | arr xs => simp [Json.isStr] at hstr
    | obj fs => simp [Json.isStr] at hstr

/-- Witness for C9 at a resource missing its mimeType (named by its text
uri) and at a resource missing its uri as well (named "unknown", still a
blocking finding for the uri field). -/
theorem resource_missing_mimetype_blocking_witness :
    validate_resource_schema [("uri", Json.str "hgnc://info"), ("name", Json.str "info")]
      = ["❌ Resource " ++ "hgnc://info" ++ ": missing required field "
          ++ pyQuote ++ "mimeType" ++ pyQuote]
    ∧ isCritical ("❌ Resource " ++ "hgnc://info" ++ ": missing required field "
        ++ pyQuote ++ "mimeType" ++ pyQuote) = true
    ∧ (∃ s, resource_field_issues
          (pyStr (dgetD [("name", Json.str "n")] "uri" (Json.str "unknown")))
          [("name", Json.str "n")] "uri" = [s] ∧ isCritical s = true) := by
  have h := resource_missing_mimetype_blocking
    [("uri", Json.str "hgnc://info"), ("name", Json.str "info")]
  have hu : pyStr (dgetD [("uri", Json.str "hgnc://info"), ("name", Json.str "info")]
      "uri" (Json.str "unknown")) = "hgnc://info" := h.2.1 "hgnc://info" rfl
  obtain ⟨hm1, hm2⟩ := h.2.2.1 rfl
  rw [hu] at hm1 hm2
  have hf1 := h.2.2.2.2 "uri" (Json.str "hgnc://info") rfl rfl
  have hf2 := h.2.2.2.2 "name" (Json.str "info") rfl rfl
  rw [hu] at hf1 hf2
  refine ⟨?_, hm2, ?_⟩
  · rw [h.1, hu, hf1, hf2, hm1]
    rfl
  · exact (resource_missing_mimetype_blocking [("name", Json.str "n")]).2.2.2.1
      "uri" (Or.inl rfl)

/-- Claim C6: given the issues the three validators produced, the
validator's exit status is 1 exactly when some blocking (cross-mark) finding
exists and 0 exactly when none does — advisory findings alone exit 0. -/
theorem validator_exit_one_iff_blocking (tools prompts resources : List JDict)
    (issues : List String)
    (hok : schema_all_issues tools prompts resources = Except.ok issues) :
    (schema_main_exit issues = 1 ↔ ∃ i ∈ issues, isCritical i = true)
    ∧ (schema_main_exit issues = 0 ↔ ∀ i ∈ issues, isCritical i = false) := by
  clear hok
  have key : (issues.filter isCritical) ≠ [] ↔ ∃ i ∈ issues, isCritical i = true := by
    rw [ne_eq, List.filter_eq_nil_iff]
    push_neg
    simp
  have hexit : schema_main_exit issues
      = if (issues.filter isCritical).length ≠ 0 then 1 else 0 := by
    unfold schema_main_exit
    by_cases hc : (issues.filter isCritical).length ≠ 0
    · rw [if_pos hc, if_pos hc]
    · rw [if_neg hc, if_neg hc, ite_self]
  rw [hexit]
  by_cases hc : (issues.filter isCritical).length ≠ 0
  · rw [if_pos hc]
    have hne : issues.filter isCritical ≠ [] := by
      intro hn
      rw [hn] at hc
      simp at hc
    refine ⟨⟨fun _ => key.mp hne, fun _ => rfl⟩, ⟨fun h10 => by simp at h10, fun hall => ?_⟩⟩
    rcases key.mp hne with ⟨i, hi, hic⟩
    rw [hall i hi] at hic
    cases hic
  · rw [if_neg hc]
    push_neg at hc
    rw [List.length_eq_zero, List.filter_eq_nil_iff] at hc
    refine ⟨⟨fun h01 => by simp at h01, fun hex => ?_⟩,
      ⟨fun _ i hi => by simpa using hc i hi, fun _ => rfl⟩⟩
    rcases hex with ⟨i, hi, hic⟩
    exact absurd hic (by simpa using hc i hi)

/-- Witness for C6: a capability snapshot with one resource missing its
mimeType produces one blocking finding and exit status 1. -/
theorem validator_exit_one_iff_blocking_witness :
    schema_main_exit ["❌ Resource " ++ "r" ++ ": missing required field "
        ++ pyQuote ++ "mimeType" ++ pyQuote] = 1 := by
  have h := validator_exit_one_iff_blocking [] []
    [[("uri", Json.str "r"), ("name", Json.str "n")]]
    ["❌ Resource " ++ "r" ++ ": missing required field " ++ pyQuote ++ "mimeType" ++ pyQuote]
    (by rfl)
  refine h.1.mpr ⟨_, List.mem_singleton.mpr rfl, ?_⟩
  repeat apply isCritical_of_prefix
  decide

theorem foldlM_capScan_eq_idStore (decode : String → Option Json) (ls : List String)
    (acc : List (Json × Json)) :
    ls.foldlM (capScanStep decode) acc
      = (ls.filterMap (responseParse decode)).foldlM idStoreStep acc := by
  induction ls generalizing acc with
  | nil => rfl
  | cons l ls ih =>
    rw [List.foldlM_cons, List.filterMap_cons]
    cases h : isResponseLine l
    · have hstep : capScanStep decode acc l = pure acc := by
        unfold capScanStep
        rw [if_neg (by simp [h])]
      rw [hstep]
      have hrp : responseParse decode l = none := by
        unfold responseParse
        rw [if_neg (by simp [h])]
      rw [hrp]
      simpa using ih acc
    · cases hd : decode l
      · have hstep : capScanStep decode acc l = pure acc := by
          unfold capScanStep
          rw [if_pos h, hd]
        rw [hstep]
        have hrp : responseParse decode l = none := by
          unfold responseParse
          rw [if_pos h]
          exact hd
        rw [hrp]
        simpa using ih acc
      · next r =>
        have hstep : capScanStep decode acc l = idStoreStep acc r := by
          unfold capScanStep
          rw [if_pos h, hd]
        have hrp : responseParse decode l = some r := by
          unfold responseParse
          rw [if_pos h]
          exact hd
        rw [hstep, hrp, List.foldlM_cons]
        cases hst : idStoreStep acc r with
        | error e => simp [bind, Except.bind, hst]
        | ok acc2 => simp [bind, Except.bind, hst, ih acc2]

theorem idStore_foldlM_ok (rs : List Json) (acc : List (Json × Json))
    (h : ∀ r ∈ rs, storeGood r = true) :
    rs.foldlM idStoreStep acc = Except.ok (rs.foldl idStep acc) := by
  induction rs generalizing acc with
  | nil => rfl
  | cons r rs ih =>
    have hr : storeGood r = true := h r (List.mem_cons_self r rs)
    have hrest : ∀ x ∈ rs, storeGood x = true := fun x hx => h x (List.mem_cons_of_mem r hx)
    rw [List.foldlM_cons, List.foldl_cons]
    cases r with
    | obj fs =>
      by_cases hid : dHasKey fs "id" = true
      · by_cases hres : dHasKey fs "result" = true
        · obtain ⟨i, hi⟩ := Option.isSome_iff_exists.mp hid
          obtain ⟨res, hrv⟩ := Option.isSome_iff_exists.mp hres
          have hstep : idStoreStep acc (Json.obj fs)
              = dictSetChecked acc i res := by
            unfold idStoreStep
            simp [pyIn, dHasKey, hi, hrv, pySubscript, bind, Except.bind, pure, Except.pure]
          have hscalar : dictSetChecked acc i res = Except.ok (assocSet acc i res) := by
            rw [storeGood] at hr
            rw [show dHasKey fs "id" = true from hid,
              show dHasKey fs "result" = true from hres] at hr
            simp only [Bool.and_self, if_pos] at hr
            rw [hi] at hr
            cases i with
            | arr xs => simp at hr
            | obj ofs => simp at hr
            | null => rfl
            | bool b => rfl
            | num n => rfl
            | str s => rfl
          have hstepT : idStep acc (Json.obj fs) = assocSet acc i res := by
            show (if (dHasKey fs "id" && dHasKey fs "result") = true then
                assocSet acc (dgetD fs "id" Json.null) (dgetD fs "result" Json.null)
              else acc) = assocSet acc i res
            rw [hid, hres]
            simp [dgetD, hi, hrv]
          rw [hstep, hscalar, hstepT]
          simpa using ih (assocSet acc i res) hrest
        · have hstep : idStoreStep acc (Json.obj fs) = pure acc := by
            unfold idStoreStep
            have hres' : dHasKey fs "result" = false := by
              cases hx : dHasKey fs "result"
              · rfl
              · exact absurd hx hres
            simp [pyIn, hid, hres', bind, Except.bind, pure, Except.pure]
          have hres' : dHasKey fs "result" = false := by
            cases hx : dHasKey fs "result"
            · rfl
            · exact absurd hx hres
          have hstepT : idStep acc (Json.obj fs) = acc := by
            show (if (dHasKey fs "id" && dHasKey fs "result") = true then
                assocSet acc (dgetD fs "id" Json.null) (dgetD fs "result" Json.null)
              else acc) = acc
            rw [hres']
            simp
          rw [hstep, hstepT]
          simpa using ih acc hrest
      · have hid' : dHasKey fs "id" = false := by
          cases hx : dHasKey fs "id"
          · rfl
          · exact absurd hx hid
        have hstep : idStoreStep acc (Json.obj fs) = pure acc := by
          unfold idStoreStep
          simp [pyIn, hid', bind, Except.bind, pure, Except.pure]
        have hstepT : idStep acc (Json.obj fs) = acc := by
          show (if (dHasKey fs "id" && dHasKey fs "result") = true then
              assocSet acc (dgetD fs "id" Json.null) (dgetD fs "result" Json.null)
            else acc) = acc
          rw [hid']
          simp
        rw [hstep, hstepT]
        simpa using ih acc hrest
    | null => simp [storeGood] at hr
    | bool b => simp [storeGood] at hr
    | num n => simp [storeGood] at hr
    | str s => simp [storeGood] at hr
    | arr xs => simp [storeGood] at hr

/-- Claim C10: get_mcp_capabilities correlates responses to requests by the
id field, not by output position: each capability list is read (with an
empty-list default) out of the result stored under id 2, 3 or 4
respectively, where the stored results are exactly those of recovered
responses carrying both an id and a result (error-carrying responses store
nothing), later equal ids overwriting earlier ones; an id with no stored
result yields the empty default. -/
theorem capabilities_correlated_by_id (decode : String → Option Json) (stdout : String)
    (hgood : ∀ r ∈ recoveredResponses decode stdout, storeGood r = true)
    (h2 : capResultGood (idResults (recoveredResponses decode stdout)) (Json.num 2) = true)
    (h3 : capResultGood (idResults (recoveredResponses decode stdout)) (Json.num 3) = true)
    (h4 : capResultGood (idResults (recoveredResponses decode stdout)) (Json.num 4) = true) :
    get_mcp_capabilities decode stdout
      = ⟨objGetD (assocGetD (idResults (recoveredResponses decode stdout))
            (Json.num 2) (Json.obj [])) "tools" (Json.arr []),
         objGetD (assocGetD (idResults (recoveredResponses decode stdout))
            (Json.num 3) (Json.obj [])) "prompts" (Json.arr []),
         objGetD (assocGetD (idResults (recoveredResponses decode stdout))
            (Json.num 4) (Json.obj [])) "resources" (Json.arr [])⟩ := by
  have hfold : (scanLines stdout).foldlM (capScanStep decode) ([] : List (Json × Json))
      = Except.ok (idResults (recoveredResponses decode stdout)) := by
    rw [foldlM_capScan_eq_idStore]
    exact idStore_foldlM_ok _ _ hgood
  have hget : ∀ (k : Json) (kname : String),
      capResultGood (idResults (recoveredResponses decode stdout)) k = true →
      pyDictGet (assocGetD (idResults (recoveredResponses decode stdout)) k (Json.obj []))
          kname (Json.arr [])
        = Except.ok (objGetD (assocGetD (idResults (recoveredResponses decode stdout))
            k (Json.obj [])) kname (Json.arr [])) := by
    intro k kname hk
    unfold capResultGood at hk
    unfold assocGetD
    cases hfind : ((idResults (recoveredResponses decode stdout)).find?
        (fun p => scalarKeyEq p.1 k)).map (fun p => p.2) with
    | none => rfl
    | some v =>
      rw [hfind] at hk
      cases v with
      | obj ofs => rfl
      | null => simp at hk
      | bool b => simp at hk
      | num n => simp at hk
      | str s => simp at hk
      | arr xs => simp at hk
  unfold get_mcp_capabilities get_mcp_capabilities_body
  rw [hfold]
  simp [bind, Except.bind, pure, Except.pure,
    hget (Json.num 2) "tools" h2, hget (Json.num 3) "prompts" h3,
    hget (Json.num 4) "resources" h4]

/-- Witness for C10 on a captured output with noise, out-of-order
responses, an error-carrying response (ignored), and no prompts response
(empty default). -/
theorem capabilities_correlated_by_id_witness :
    (get_mcp_capabilities decodeFix capStdout).tools
        = Json.arr [Json.obj [("name", Json.str "t1")]]
    ∧ (get_mcp_capabilities decodeFix capStdout).prompts = Json.arr []
    ∧ (get_mcp_capabilities decodeFix capStdout).resources = Json.arr [] := by
  have h := capabilities_correlated_by_id decodeFix capStdout
    (by decide) (by decide) (by decide) (by decide)
  rw [h]
  exact ⟨rfl, rfl, rfl⟩
